import Mathlib

/-
Verification development for the phtorg photo organizer.

The definitions below are a shallow embedding of `phtorg/organizer.py`,
`phtorg/tpe.py` and `phtorg/constants.py` (the current package; the older
single-file `organize_photos.py` is superseded by it).  Python `datetime`
values are modelled by a wall-clock second count plus an optional timezone,
Python exceptions by an explicit error type threaded through `Except`, and
the external parsing libraries (`dateutil.isoparse`, `hashlib.sha1`) by
executable Lean functions faithful to the inputs the program feeds them.
-/

namespace Phtorg

/-- Python exception values, as far as the organizer distinguishes them. -/
inductive PyExc where
  | runtimeError (msg : String)
  | assertionError (msg : String)
  | valueError (msg : String)
  | typeError (msg : String)
  | exception (msg : String)
  deriving DecidableEq, Repr

instance {ε α : Type} [DecidableEq ε] [DecidableEq α] : DecidableEq (Except ε α) := fun x y =>
  match x, y with
  | .ok a, .ok b =>
    if h : a = b then isTrue (by rw [h]) else isFalse (by intro hc; cases hc; exact h rfl)
  | .error a, .error b =>
    if h : a = b then isTrue (by rw [h]) else isFalse (by intro hc; cases hc; exact h rfl)
  | .ok _, .error _ => isFalse (by intro hc; cases hc)
  | .error _, .ok _ => isFalse (by intro hc; cases hc)

/-- A single-quote character, used to render Python `repr` strings. -/
def sq : String := String.mk [Char.ofNat 39]

/-- Python `repr(e)` for an exception: class name and single-quoted message. -/
def PyExc.reprStr : PyExc → String
  | .runtimeError m => "RuntimeError(" ++ sq ++ m ++ sq ++ ")"
  | .assertionError m => "AssertionError(" ++ sq ++ m ++ sq ++ ")"
  | .valueError m => "ValueError(" ++ sq ++ m ++ sq ++ ")"
  | .typeError m => "TypeError(" ++ sq ++ m ++ sq ++ ")"
  | .exception m => "Exception(" ++ sq ++ m ++ sq ++ ")"

/-- Constant-offset model of a `pytz` timezone: the zone name (what Python's
`str(tzinfo)` returns) and a fixed UTC offset in seconds.  The program only
ever compares zones by name and shifts instants by the zone offset, so a
fixed offset per zone is all the claims need; DST transitions are not
modelled. -/
structure Timezone where
  name : String
  offsetSec : Int
  deriving DecidableEq, Repr

/-- Model of `pytz.utc`. -/
def utcTz : Timezone := ⟨"UTC", 0⟩

/-- Model of Python `datetime.datetime`: the wall-clock (civil) time encoded
as seconds since 1970-01-01 00:00:00 *of the local clock face*, plus an
optional tzinfo.  A naive datetime has `tz = none`; for an aware one the UTC
instant it denotes is `localSec - tz.offsetSec`. -/
structure Datetime where
  localSec : Int
  tz : Option Timezone
  deriving DecidableEq, Repr

/-- Days since 1970-01-01 of a proleptic-Gregorian civil date
(Howard Hinnant's `days_from_civil`). -/
def daysFromCivil (y : Int) (m d : Nat) : Int :=
  let y2 : Int := if m ≤ 2 then y - 1 else y
  let era : Int := Int.fdiv y2 400
  let yoe : Nat := (y2 - era * 400).toNat
  let mp : Nat := if m > 2 then m - 3 else m + 9
  let doy : Nat := (153 * mp + 2) / 5 + d - 1
  let doe : Nat := yoe * 365 + yoe / 4 - yoe / 100 + doy
  era * 146097 + (doe : Int) - 719468

/-- Civil date of a day count since 1970-01-01 (Hinnant's `civil_from_days`). -/
def civilFromDays (z : Int) : Int × Nat × Nat :=
  let z2 := z + 719468
  let era : Int := Int.fdiv z2 146097
  let doe : Nat := (z2 - era * 146097).toNat
  let yoe : Nat := (doe - doe / 1460 + doe / 36524 - doe / 146096) / 365
  let doy : Nat := doe - (365 * yoe + yoe / 4 - yoe / 100)
  let mp : Nat := (5 * doy + 2) / 153
  let d : Nat := doy - (153 * mp + 2) / 5 + 1
  let m : Nat := if mp < 10 then mp + 3 else mp - 9
  let y : Int := (yoe : Int) + era * 400 + (if m ≤ 2 then 1 else 0)
  (y, m, d)

/-- Civil fields (year, month, day, hour, minute, second) of a wall-clock
second count. -/
def civilOfSec (s : Int) : Int × Nat × Nat × Nat × Nat × Nat :=
  let days := Int.fdiv s 86400
  let sod : Nat := (s - days * 86400).toNat
  let c := civilFromDays days
  (c.1, c.2.1, c.2.2, sod / 3600, sod % 3600 / 60, sod % 60)

/-- Wall-clock second count of civil fields. -/
def secOfCivil (y : Int) (m d h mi s : Nat) : Int :=
  daysFromCivil y m d * 86400 + ((h * 3600 + mi * 60 + s : Nat) : Int)

/-- Python `dt.astimezone(tz)`: keep the denoted instant, change the zone.
The program only calls it on aware datetimes; a missing zone contributes a
zero offset here. -/
def Datetime.astimezone (dt : Datetime) (tz : Timezone) : Datetime :=
  let off : Int := match dt.tz with
    | some t => t.offsetSec
    | none => 0
  { localSec := dt.localSec - off + tz.offsetSec, tz := some tz }

/-- `pytz` `tz.localize(dt)`: attach the zone to a naive datetime without
moving the clock face; raises `ValueError` on an already-aware datetime. -/
def pytzLocalize (tz : Timezone) (dt : Datetime) : Except PyExc Datetime :=
  if dt.tz.isSome then .error (.valueError "Not naive datetime (tzinfo is already set)")
  else .ok { localSec := dt.localSec, tz := some tz }

/-- Python `dt.year`. -/
def Datetime.year (dt : Datetime) : Int := (civilOfSec dt.localSec).1

/-- Zero-padded decimal digits of a natural number. -/
def padNum (width n : Nat) : List Char :=
  let s := Nat.toDigits 10 n
  List.replicate (width - s.length) '0' ++ s

/-- Python `dt.strftime("%Y%m%d_%H%M%S")` (constants.DATETIME_FMT); years in
this program are positive four-digit years. -/
def Datetime.strftimeCompact (dt : Datetime) : String :=
  let c := civilOfSec dt.localSec
  String.mk (padNum 4 c.1.toNat ++ padNum 2 c.2.1 ++ padNum 2 c.2.2.1 ++ ['_'] ++
    padNum 2 c.2.2.2.1 ++ padNum 2 c.2.2.2.2.1 ++ padNum 2 c.2.2.2.2.2)

/-- Python `str(i)` for an integer. -/
def intToStr (i : Int) : String :=
  if i < 0 then String.mk ('-' :: Nat.toDigits 10 (-i).toNat)
  else String.mk (Nat.toDigits 10 i.toNat)

/-- Python `s.lower()` (ASCII range, which covers file extensions). -/
def lowerStr (s : String) : String := String.mk (s.data.map Char.toLower)

/-- Python `s[:n]` (by characters). -/
def takeChars (n : Nat) (s : String) : String := String.mk (s.data.take n)

/-- Replace the first `k` occurrences of a colon by a dash. -/
def replaceChar2 : List Char → Nat → List Char
  | [], _ => []
  | c :: rest, 0 => c :: rest
  | c :: rest, Nat.succ k =>
    if c = ':' then '-' :: replaceChar2 rest k else c :: replaceChar2 rest (Nat.succ k)

/-- Python `s.replace(":", "-", 2)`. -/
def replaceColons2 (s : String) : String := String.mk (replaceChar2 s.data 2)

/-- Python `s.startswith(pre)`. -/
def strStarts (pre s : String) : Bool := pre.data.isPrefixOf s.data

/-- Python `s.endswith(suf)`. -/
def strEnds (suf s : String) : Bool := suf.data.isSuffixOf s.data

/-- Python `s.removeprefix(pre)`. -/
def removePre (pre s : String) : String :=
  if strStarts pre s then String.mk (s.data.drop pre.data.length) else s

/-- Python `s.removesuffix(suf)`. -/
def removeSuf (suf s : String) : String :=
  if strEnds suf s then String.mk (s.data.take (s.data.length - suf.data.length)) else s

/-- Python `s.strip()` on the space-padded strings the program produces. -/
def stripSpaces (s : String) : String :=
  String.mk (((s.data.dropWhile (· = ' ')).reverse.dropWhile (· = ' ')).reverse)

/-- Decimal value of a digit string. -/
def digitsVal (cs : List Char) : Nat :=
  cs.foldl (fun a c => a * 10 + (c.toNat - 48)) 0

/-- Read exactly `n` decimal digits from the front of a character list. -/
def grabDigits (n : Nat) (cs : List Char) : Option (Nat × List Char) :=
  let pre := cs.take n
  if pre.length == n && pre.all Char.isDigit then some (digitsVal pre, cs.drop n)
  else none

/-- Parse the optional trailing UTC offset of an ISO 8601 string:
empty (naive), `Z`, or `±HH`, `±HHMM`, `±HH:MM`. -/
def parseIsoOffset (cs : List Char) : Option (Option Timezone) :=
  match cs with
  | [] => some none
  | ['Z'] => some (some utcTz)
  | c :: rest =>
    if c = '+' ∨ c = '-' then
      match grabDigits 2 rest with
      | none => none
      | some (hh, r1) =>
        let mkTz : Nat → Option (Option Timezone) := fun minutes =>
          if hh ≤ 23 ∧ minutes ≤ 59 then
            let mag : Int := (hh * 3600 + minutes * 60 : Nat)
            let off : Int := if c = '-' then -mag else mag
            some (some ⟨"tzoffset(None, " ++ intToStr off ++ ")", off⟩)
          else none
        match r1 with
        | [] => mkTz 0
        | ':' :: r2 =>
          match grabDigits 2 r2 with
          | some (mm, []) => mkTz mm
          | _ => none
        | _ =>
          match grabDigits 2 r1 with
          | some (mm, []) => mkTz mm
          | _ => none
    else none

/-- Model of `dateutil.parser.isoparse`, restricted to the shapes this
program feeds it: `YYYY-MM-DD`, optionally followed by a single separator
character and `HH[:MM[:SS]]`, optionally followed by a UTC offset (`Z`,
`±HH:MM`, `±HHMM` or `±HH`).  Any other input raises `ValueError`, as the
real parser does on the malformed strings the call sites can produce. -/
def isoparse (s : String) : Except PyExc Datetime :=
  let err : Except PyExc Datetime :=
    .error (.valueError ("Invalid isoformat string: " ++ sq ++ s ++ sq))
  match grabDigits 4 s.data with
  | none => err
  | some (y, r1) =>
    match r1 with
    | '-' :: r2 =>
      match grabDigits 2 r2 with
      | none => err
      | some (mo, r3) =>
        match r3 with
        | '-' :: r4 =>
          match grabDigits 2 r4 with
          | none => err
          | some (d, r5) =>
            if mo < 1 ∨ 12 < mo ∨ d < 1 ∨ 31 < d then err
            else
              match r5 with
              | [] => .ok ⟨secOfCivil (y : Int) mo d 0 0 0, none⟩
              | _ :: r6 =>
                match grabDigits 2 r6 with
                | none => err
                | some (h, r7) =>
                  let finish : Nat → Nat → List Char → Except PyExc Datetime :=
                    fun mi sec rest =>
                      if h ≤ 23 ∧ mi ≤ 59 ∧ sec ≤ 59 then
                        match parseIsoOffset rest with
                        | some tz => .ok ⟨secOfCivil (y : Int) mo d h mi sec, tz⟩
                        | none => err
                      else err
                  match r7 with
                  | ':' :: r8 =>
                    match grabDigits 2 r8 with
                    | none => err
                    | some (mi, r9) =>
                      match r9 with
                      | ':' :: r10 =>
                        match grabDigits 2 r10 with
                        | none => err
                        | some (sec, r11) => finish mi sec r11
                      | _ => finish mi 0 r9
                  | _ => finish 0 0 r7
        | _ => err
    | _ => err

/-- Truncate to a 32-bit word. -/
def w32 (n : Nat) : Nat := n % 4294967296

/-- Rotate a 32-bit word left by `k`. -/
def rotl (k n : Nat) : Nat := w32 ((n <<< k) ||| (n >>> (32 - k)))

/-- SHA-1 padding: append `0x80`, zero bytes up to 56 mod 64, then the
64-bit big-endian bit length. -/
def sha1Pad (msg : List Nat) : List Nat :=
  let len := msg.length
  let zeros := (56 + 64 - (len + 1) % 64) % 64
  let lenBytes := (List.range 8).map (fun i => (len * 8) >>> (8 * (7 - i)) % 256)
  msg ++ [128] ++ List.replicate zeros 0 ++ lenBytes

/-- Group bytes into big-endian 32-bit words. -/
def bytesToWords : List Nat → List Nat
  | a :: b :: c :: d :: rest =>
    w32 (a % 256 * 16777216 + b % 256 * 65536 + c % 256 * 256 + d % 256) :: bytesToWords rest
  | _ => []

/-- Split a byte list into 64-byte blocks; the fuel argument bounds the
number of blocks. -/
def toBlocks64Aux : Nat → List Nat → List (List Nat)
  | 0, _ => []
  | Nat.succ k, l => if l.isEmpty then [] else l.take 64 :: toBlocks64Aux k (l.drop 64)

/-- Split the padded message into 64-byte blocks. -/
def toBlocks64 (l : List Nat) : List (List Nat) := toBlocks64Aux l.length l

/-- Extend the 16 message-schedule words by `k` more words. -/
def sha1Extend (w : List Nat) : Nat → List Nat
  | 0 => w
  | Nat.succ k =>
    let w2 := sha1Extend w k
    let n := w2.length
    w2 ++ [rotl 1 ((w2.getD (n - 3) 0 ^^^ w2.getD (n - 8) 0) ^^^
      (w2.getD (n - 14) 0 ^^^ w2.getD (n - 16) 0))]

/-- The SHA-1 round function. -/
def sha1F (t b c d : Nat) : Nat :=
  if t < 20 then w32 ((b &&& c) ||| ((4294967295 ^^^ b) &&& d))
  else if t < 40 then w32 ((b ^^^ c) ^^^ d)
  else if t < 60 then w32 ((b &&& c) ||| (b &&& d) ||| (c &&& d))
  else w32 ((b ^^^ c) ^^^ d)

/-- The SHA-1 round constants. -/
def sha1K (t : Nat) : Nat :=
  if t < 20 then 1518500249
  else if t < 40 then 1859775393
  else if t < 60 then 2400959708
  else 3395469782

/-- Process one 64-byte block. -/
def sha1Block (h : Nat × Nat × Nat × Nat × Nat) (block : List Nat) :
    Nat × Nat × Nat × Nat × Nat :=
  let w := sha1Extend (bytesToWords block) 64
  let fin := (List.range 80).foldl
    (fun (st : Nat × Nat × Nat × Nat × Nat) t =>
      let temp := w32 (rotl 5 st.1 + sha1F t st.2.1 st.2.2.1 st.2.2.2.1 +
        st.2.2.2.2 + sha1K t + w.getD t 0)
      (temp, st.1, rotl 30 st.2.1, st.2.2.1, st.2.2.2.1)) h
  (w32 (h.1 + fin.1), w32 (h.2.1 + fin.2.1), w32 (h.2.2.1 + fin.2.2.1),
    w32 (h.2.2.2.1 + fin.2.2.2.1), w32 (h.2.2.2.2 + fin.2.2.2.2))

/-- Hexadecimal digit character. -/
def hexDigit (n : Nat) : Char := if n < 10 then Char.ofNat (48 + n) else Char.ofNat (87 + n)

/-- Fixed-width lowercase hexadecimal rendering. -/
def toHex (width n : Nat) : List Char :=
  (List.range width).map (fun i => hexDigit (n >>> (4 * (width - 1 - i)) % 16))

/-- `hashlib.sha1(...).hexdigest()` over whole file content.  The source
streams the file in 10 MiB chunks into one hash object, which digests the
concatenation, i.e. the full byte content. -/
def sha1Hex (msg : List Nat) : String :=
  let st := (toBlocks64 (sha1Pad msg)).foldl sha1Block
    (1732584193, 4023233417, 2562383102, 271733878, 3285377520)
  String.mk (toHex 8 st.1 ++ toHex 8 st.2.1 ++ toHex 8 st.2.2.1 ++
    toHex 8 st.2.2.2.1 ++ toHex 8 st.2.2.2.2)

/-- Model of `pathlib.Path`: the path components.  `str(path)` joins them
with slashes (paths in this development are written relative-style). -/
structure Path where
  parts : List String
  deriving DecidableEq, Repr

/-- Python `str(path)`. -/
def pathStr (p : Path) : String :=
  String.mk (List.intercalate ['/'] (p.parts.map String.data))

/-- Python `path.name`: the final component. -/
def Path.name (p : Path) : String := (p.parts.getLast?).getD ""

/-- Python `path.suffix`: from the last dot of the name, when that dot is
neither the first nor past the last character. -/
def Path.suffix (p : Path) : String :=
  let cs := (Path.name p).data
  match List.findIdx? (· = '.') cs.reverse with
  | none => ""
  | some r =>
    let i := cs.length - 1 - r
    if 0 < i ∧ i < cs.length - 1 then String.mk (cs.drop i) else ""

/-- Python `path.suffix.lower()`. -/
def Path.suffixLower (p : Path) : String := lowerStr (Path.suffix p)

/-- Python `path / component`. -/
def Path.child (p : Path) (s : String) : Path := ⟨p.parts ++ [s]⟩

/-- The general MediaInfo track fields the program reads
(`pymediainfo` returns `None` or a string for each). -/
structure GeneralTrack where
  comapplequicktimecreationdate : Option String
  encoded_date : Option String
  tagged_date : Option String
  deriving DecidableEq, Repr

/-- Everything the pipeline can observe about one file on disk: its path,
the merged name-keyed EXIF dictionary built at organizer.py lines 128-136
(top-level tags merged with the EXIF sub-IFD, keyed by tag name, byte-valued
entries dropped; the tags the code reads are ASCII strings), the MediaInfo
general track, the stat mtime in whole seconds, and the byte content. -/
structure MediaFile where
  path : Path
  exif : List (String × String)
  track : GeneralTrack
  mtimeSec : Int
  content : List Nat
  deriving DecidableEq, Repr

/-- Python `dict.get` on the EXIF dictionary. -/
def exifGet (m : List (String × String)) (k : String) : Option String :=
  (m.find? (fun e => e.1 == k)).map (·.2)

/-- The `PhotoInfo` dataclass. -/
structure PhotoInfo where
  path : Path
  datetime : Option Datetime
  datetime_source : Option String
  errors : List String
  deriving DecidableEq, Repr

/-- `PhotoInfo.no_datetime`. -/
def PhotoInfo.no_datetime (p : Path) (err : String) : PhotoInfo := ⟨p, none, none, [err]⟩

/-- The `RenameTask` dataclass. -/
structure RenameTask where
  photo_info : PhotoInfo
  destination : Path
  deriving DecidableEq, Repr

/-- `PhotoOrganizer.pillow_exts`. -/
def pillowExts : List String := [".jpg", ".jpeg", ".heic"]

/-- `PhotoOrganizer.mediainfo_exts`. -/
def mediainfoExts : List String := [".mov", ".mp4", ".m4v"]

/-- `PhotoOrganizer.screenshot_exts`. -/
def screenshotExts : List String := [".png", ".gif", ".bmp", ".webp"]

/-- `PhotoOrganizer.allowed_exts`. -/
def allowedExts : List String := pillowExts ++ mediainfoExts ++ screenshotExts

/-- `constants.DEFAULT_PREFIX`. -/
def defaultPfx : String := "IMG_"

/-- `constants.SCREENSHOT_PREFIX` (defined by the package but, as proved
below, never used by the organizer). -/
def screenshotPfx : String := "Screenshot_"

/-- The organizer's configuration: destination root, configured timezone and
the mtime-fallback flag (`PhotoOrganizer.__init__` plus the `allow_mtime`
class attribute set by the CLI).  The source directory is carried separately
by `SrcInput` below. -/
structure Organizer where
  dst_dir : Path
  timezone : Timezone
  allow_mtime : Bool
  deriving DecidableEq, Repr

/-- Python `a or b` on optional strings: `None` and the empty string are
falsy; the value is the first truthy operand, else the right operand as-is. -/
def pyOrStr (a b : Option String) : Option String :=
  match a with
  | some s => if s = "" then b else some s
  | none => b

/-- Python truthiness of an optional string. -/
def truthyStr : Option String → Bool
  | some s => !(s == "")
  | none => false

/-- Organizer.py line 146: `exif.get('DateTimeOriginal') or
exif.get('DateTimeDigitized') or exif.get('DateTime')`. -/
def selectExifDT (exif : List (String × String)) : Option String :=
  pyOrStr (pyOrStr (exifGet exif "DateTimeOriginal") (exifGet exif "DateTimeDigitized"))
    (exifGet exif "DateTime")

/-- Organizer.py line 147: `exif.get('OffsetTimeOriginal') or
exif.get('OffsetTimeDigitized') or exif.get('OffsetTime')`. -/
def selectExifOffset (exif : List (String × String)) : Option String :=
  pyOrStr (pyOrStr (exifGet exif "OffsetTimeOriginal") (exifGet exif "OffsetTimeDigitized"))
    (exifGet exif "OffsetTime")

/-- Organizer.py line 149: `re.match(r'[+-]\d\d\:\d\d', s)` — does `s`
*begin with* a sign, two digits, a colon and two digits (`re.match` anchors
at the start only, so trailing characters are not rejected). -/
def offsetPrefixOk (s : String) : Bool :=
  match s.data with
  | c0 :: c1 :: c2 :: c3 :: c4 :: c5 :: _ =>
    (c0 == '+' || c0 == '-') && c1.isDigit && c2.isDigit && (c3 == ':') &&
      c4.isDigit && c5.isDigit
  | _ => false

/-- Organizer.py lines 163-165: the no-offset branch — parse the normalized
string and localize the naive result to the configured timezone. -/
def pillowNaive (org : Organizer) (f : MediaFile) (dt_str : String) :
    Except PyExc PhotoInfo :=
  match isoparse dt_str with
  | .error e => .error e
  | .ok dt0 =>
    match pytzLocalize org.timezone dt0 with
    | .error e => .error e
    | .ok dt => .ok ⟨f.path, some dt, some "EXIF", []⟩

/-- Organizer.py lines 147-150: the offset chain with the garbage check —
a selected value failing the pattern check is blanked to the empty string. -/
def exifOffsetNorm (exif : List (String × String)) : Option String :=
  match selectExifOffset exif with
  | some s => if offsetPrefixOk s then some s else some ""
  | none => none

/-- Organizer.py lines 156-165 after the datetime string has been selected,
truncated and colon-normalized: parse with the (truthy) offset appended and
convert to the configured timezone, or parse naive and localize. -/
def pillowFinish (org : Organizer) (f : MediaFile) (dt_str : String) :
    Except PyExc PhotoInfo :=
  match exifOffsetNorm f.exif with
  | some o =>
    if o = "" then pillowNaive org f dt_str
    else
      match isoparse (dt_str ++ o) with
      | .error e => .error e
      | .ok dt => .ok ⟨f.path, some (dt.astimezone org.timezone), some "EXIF", []⟩
  | none => pillowNaive org f dt_str

/-- `PhotoOrganizer.get_info_from_pillow` (organizer.py lines 127-165),
starting from the merged EXIF dictionary carried by the file model. -/
def getInfoFromPillow (org : Organizer) (f : MediaFile) : Except PyExc PhotoInfo :=
  if f.exif.isEmpty then
    .ok (PhotoInfo.no_datetime f.path "File is EXIF-compatible but no EXIF found")
  else
    match selectExifDT f.exif with
    | none => .ok (PhotoInfo.no_datetime f.path "EXIF exists but no datetime found")
    | some s => pillowFinish org f (replaceColons2 (takeChars 19 s))

/-- Organizer.py lines 180-186: wrap a parsed container datetime — convert
an aware instant to the configured timezone, localize a naive one as UTC and
convert; propagate a parse error. -/
def miFinish (org : Organizer) (f : MediaFile) (r : Except PyExc Datetime) :
    Except PyExc PhotoInfo :=
  match r with
  | .error e => .error e
  | .ok dt =>
    if dt.tz.isSome then .ok ⟨f.path, some (dt.astimezone org.timezone), some "MediaInfo", []⟩
    else
      match pytzLocalize utcTz dt with
      | .error e => .error e
      | .ok u => .ok ⟨f.path, some (u.astimezone org.timezone), some "MediaInfo", []⟩

/-- `PhotoOrganizer.get_info_from_mediainfo` (organizer.py lines 167-186). -/
def getInfoFromMediainfo (org : Organizer) (f : MediaFile) : Except PyExc PhotoInfo :=
  let t := f.track
  if truthyStr t.comapplequicktimecreationdate then
    miFinish org f (isoparse ((t.comapplequicktimecreationdate).getD ""))
  else
    let ed := pyOrStr t.encoded_date t.tagged_date
    if truthyStr ed then
      let s := ed.getD ""
      if strStarts "UTC" s || strEnds "UTC" s then
        miFinish org f (isoparse (stripSpaces (removeSuf "UTC" (removePre "UTC" s))))
      else .error (.assertionError "encoded_date/tagged_date should have UTC marking")
    else .ok (PhotoInfo.no_datetime f.path "Cannot extract datetime from MediaInfo")

/-- `PhotoOrganizer.parse_timestamp`: `datetime.fromtimestamp(ts, tz)` —
an aware datetime in the configured timezone denoting epoch second `ts`. -/
def parse_timestamp (org : Organizer) (ts : Int) : Datetime :=
  ⟨ts + org.timezone.offsetSec, some org.timezone⟩

/-- `PhotoOrganizer.get_info_from_file` (mtime extractor). -/
def getInfoFromFile (org : Organizer) (f : MediaFile) : PhotoInfo :=
  ⟨f.path, some (parse_timestamp org f.mtimeSec), some "mtime", []⟩

/-- The validation block of `PhotoOrganizer.get_info` (organizer.py lines
103-108): when a datetime is present, assert it is aware and that
`str(tzinfo)` equals `str(self.timezone)` (zone names). -/
def validateInfo (tz : Timezone) (info : PhotoInfo) : Except PyExc PhotoInfo :=
  match info.datetime with
  | none => .ok info
  | some dt =>
    match dt.tz with
    | none => .error (.assertionError "timezone does not exist")
    | some t =>
      if t.name = tz.name then .ok info
      else .error (.assertionError "timezone does not match")

/-- The dispatch block of `PhotoOrganizer.get_info` (organizer.py lines
92-101): route by lowercased extension, raising on any other extension. -/
def getInfoRaw (org : Organizer) (f : MediaFile) : Except PyExc PhotoInfo :=
  let ext := Path.suffixLower f.path
  if pillowExts.contains ext then getInfoFromPillow org f
  else if mediainfoExts.contains ext then getInfoFromMediainfo org f
  else if screenshotExts.contains ext then
    .ok (PhotoInfo.no_datetime f.path "Datetime extraction is skipped for this type of file")
  else .error (.runtimeError ("Unexpected extension: " ++ pathStr f.path))

/-- `PhotoOrganizer.get_info`: dispatch then validation. -/
def getInfo (org : Organizer) (f : MediaFile) : Except PyExc PhotoInfo :=
  match getInfoRaw org f with
  | .error e => .error e
  | .ok info => validateInfo org.timezone info

/-- The source input: a single file, or a directory whose
`rglob('*.*')` listing is the given entries. -/
inductive SrcInput where
  | file (p : Path)
  | tree (entries : List Path)
  deriving DecidableEq, Repr

/-- `PhotoOrganizer.iter_photo` (organizer.py lines 111-117): a single-file
source is yielded unconditionally; a directory listing is filtered by
`allowed_exts`. -/
def iterPhoto (src : SrcInput) : List Path :=
  match src with
  | .file p => [p]
  | .tree entries => entries.filter (fun p => allowedExts.contains (Path.suffixLower p))

/-- `PhotoOrganizer.get_deterministic_filename` (organizer.py lines
196-206); the `pfx` parameter models the keyword argument whose default is
`constants.DEFAULT_PREFIX`, and the organizer's only call site passes no
prefix, i.e. uses `defaultPfx`. -/
def get_deterministic_filename (f : MediaFile) (dt : Datetime) (pfx : String) : String :=
  pfx ++ dt.strftimeCompact ++ "_" ++ takeChars 7 (sha1Hex f.content) ++
    Path.suffixLower f.path

/-- `PhotoOrganizer._get_rename_task` (organizer.py lines 208-224). -/
def get_rename_task (org : Organizer) (f : MediaFile) : Except PyExc RenameTask :=
  match getInfo org f with
  | .error e => .error e
  | .ok info0 =>
    let step : Except PyExc PhotoInfo :=
      if info0.datetime.isNone then
        if org.allow_mtime then .ok (getInfoFromFile org f)
        else .error (.exception "Cannot determine datetime from EXIF/MediaInfo. Fallback to mtime is not allowed.")
      else .ok info0
    match step with
    | .error e => .error e
    | .ok info =>
      match info.datetime with
      | none => .error (.assertionError "")
      | some dt =>
        let fn := get_deterministic_filename f dt defaultPfx
        .ok ⟨info, Path.child (Path.child org.dst_dir (intToStr dt.year)) fn⟩

/-- The filesystem state the reconciler consults: existence of a path and
whether two paths name the same file (inode identity). -/
structure FS where
  fileExists : Path → Bool
  samefile : Path → Path → Bool

/-- One iteration of the completed-tasks loop in
`PhotoOrganizer._prepare_rename_tasks` (organizer.py lines 228-239). -/
def prepareStep (fs : FS) (acc : List RenameTask × List PhotoInfo)
    (pt : Path × RenameTask) : List RenameTask × List PhotoInfo :=
  let task := pt.2
  if fs.fileExists task.destination then
    if fs.samefile task.destination task.photo_info.path then acc
    else
      (acc.1, acc.2 ++ [{ task.photo_info with
        errors := task.photo_info.errors ++
          ["Destination already exists: " ++ pathStr task.destination] }])
  else (acc.1 ++ [task], acc.2)

/-- `PhotoOrganizer._prepare_rename_tasks` (organizer.py lines 226-242):
reconcile completed tasks against the filesystem, then turn every failed
item into a skipped `no_datetime` entry carrying `repr(exception)`. -/
def prepare_rename_tasks (fs : FS) (completed : List (Path × RenameTask))
    (failed : List (Path × PyExc)) : List RenameTask × List PhotoInfo :=
  let a := completed.foldl (prepareStep fs) ([], [])
  (a.1, a.2 ++ failed.map (fun pe => PhotoInfo.no_datetime pe.1 (PyExc.reprStr pe.2)))

/-- One observable event of the polling loop in `tpe_submit` (tpe.py lines
27-44): either some submitted item's future is consumed (with its result or
its captured exception), or a `KeyboardInterrupt` arrives. -/
inductive TpeEvent (α β : Type) where
  | done (item : α) (result : Except PyExc β)
  | interrupt
  deriving DecidableEq, Repr

/-- Is the event not an interrupt? -/
def notInterrupt {α β : Type} : TpeEvent α β → Bool
  | .interrupt => false
  | _ => true

/-- The successful completion an event contributes, if any. -/
def doneOk {α β : Type} : TpeEvent α β → Option (α × β)
  | .done a (.ok b) => some (a, b)
  | _ => none

/-- The captured failure an event contributes, if any. -/
def doneErr {α β : Type} : TpeEvent α β → Option (α × PyExc)
  | .done a (.error e) => some (a, e)
  | _ => none

/-- The accumulation loop of `tpe_submit`: successful futures append to
`completed`, failing ones to `failed`; a `KeyboardInterrupt` stops the loop
(the `finally: return completed, failed` makes the function return what was
collected so far instead of raising). -/
def tpeGo {α β : Type} : List (TpeEvent α β) → List (α × β) → List (α × PyExc) →
    List (α × β) × List (α × PyExc)
  | [], c, f => (c, f)
  | .done a (.ok b) :: rest, c, f => tpeGo rest (c ++ [(a, b)]) f
  | .done a (.error e) :: rest, c, f => tpeGo rest c (f ++ [(a, e)])
  | .interrupt :: _, c, f => (c, f)

/-- `tpe_submit` (tpe.py lines 15-47) as a function of the event sequence the
polling loop observes. -/
def tpe_submit {α β : Type} (events : List (TpeEvent α β)) :
    List (α × β) × List (α × PyExc) :=
  tpeGo events [] []

/-- The character list Python orders a path by (its `str`). -/
def pathKey (p : Path) : List Char := (pathStr p).data

/-- The character list Python orders a `PhotoInfo` by when paths are
pairwise distinct (tuple comparison then never passes the first field). -/
def infoKey (i : PhotoInfo) : List Char := pathKey i.path

/-- The character list Python orders a `RenameTask` by when paths are
pairwise distinct. -/
def taskKey (t : RenameTask) : List Char := infoKey t.photo_info

/-- Boolean path order on `PhotoInfo`. -/
def infoLe (a b : PhotoInfo) : Bool := decide (infoKey a ≤ infoKey b)

/-- Boolean path order on `RenameTask`. -/
def taskLe (a b : RenameTask) : Bool := decide (taskKey a ≤ taskKey b)

/-- `sorted(self.rename_tasks)` (organizer.py line 190) as realized on
batches with pairwise-distinct paths. -/
def sortTasks (l : List RenameTask) : List RenameTask := l.mergeSort taskLe

/-- `sorted(self.skipped_items)` (organizer.py line 191) as realized on
batches with pairwise-distinct paths. -/
def sortInfos (l : List PhotoInfo) : List PhotoInfo := l.mergeSort infoLe

/-- Outcome of comparing one dataclass field the way Python's tuple
comparison does: the field compares equal (move on), the comparison is
decided, or it raises. -/
inductive CmpStep where
  | eqNext
  | decided (lt : Bool)
  | raise (e : PyExc)
  deriving DecidableEq, Repr

/-- Python `==` on two datetimes: aware pairs compare their UTC instants,
naive pairs their clock faces, and a mixed pair is unequal. -/
def pyEqDT (a b : Datetime) : Bool :=
  match a.tz, b.tz with
  | some ta, some tb => decide (a.localSec - ta.offsetSec = b.localSec - tb.offsetSec)
  | none, none => decide (a.localSec = b.localSec)
  | _, _ => false

/-- Python `<` on two datetimes: defined for aware/aware (UTC instants) and
naive/naive (clock faces); a mixed pair raises `TypeError`. -/
def pyLtDT (a b : Datetime) : Except PyExc Bool :=
  match a.tz, b.tz with
  | some ta, some tb => .ok (decide (a.localSec - ta.offsetSec < b.localSec - tb.offsetSec))
  | none, none => .ok (decide (a.localSec < b.localSec))
  | _, _ => .error (.typeError "cannot compare offset-naive and offset-aware datetimes")

/-- Tuple-comparison step for one field with Python equality `eq` and
strict order `lt`. -/
def cmpField {γ : Type} (eq : γ → γ → Bool) (lt : γ → γ → Except PyExc Bool)
    (a b : γ) : CmpStep :=
  if eq a b then .eqNext
  else
    match lt a b with
    | .ok r => .decided r
    | .error e => .raise e

/-- Comparison step for the optional-datetime field: `None` pairs are equal,
a `None`/datetime pair raises on `<`. -/
def cmpOptDT (a b : Option Datetime) : CmpStep :=
  cmpField
    (fun x y =>
      match x, y with
      | none, none => true
      | some u, some v => pyEqDT u v
      | _, _ => false)
    (fun x y =>
      match x, y with
      | none, none => .ok false
      | some u, some v => pyLtDT u v
      | _, _ => .error (.typeError "unorderable NoneType and datetime"))
    a b

/-- Comparison step for the optional-string field: a `None`/str pair raises
on `<`. -/
def cmpOptStr (a b : Option String) : CmpStep :=
  cmpField
    (fun x y =>
      match x, y with
      | none, none => true
      | some u, some v => u == v
      | _, _ => false)
    (fun x y =>
      match x, y with
      | none, none => .ok false
      | some u, some v => .ok (decide (u.data < v.data))
      | _, _ => .error (.typeError "unorderable NoneType and str"))
    a b

/-- Comparison step for a string field (total). -/
def cmpStr (a b : String) : CmpStep :=
  cmpField (fun x y => x == y) (fun x y => .ok (decide (x.data < y.data))) a b

/-- Comparison step for the string-list field (lexicographic, total). -/
def cmpStrList (a b : List String) : CmpStep :=
  cmpField (fun x y => x == y) (fun x y => .ok (decide (x < y))) a b

/-- Chain tuple-comparison steps: the first field that is not equal decides
(or raises); all equal means not-less-than. -/
def chainCmp : List CmpStep → Except PyExc Bool
  | [] => .ok false
  | .eqNext :: rest => chainCmp rest
  | .decided r :: _ => .ok r
  | .raise e :: _ => .error e

/-- Python `a < b` on `PhotoInfo` dataclasses (field tuple: path, datetime,
datetime_source, errors); raises `TypeError` when an unequal field pair is
incomparable. -/
def pyLtPhotoInfo (a b : PhotoInfo) : Except PyExc Bool :=
  chainCmp [cmpStr (pathStr a.path) (pathStr b.path),
    cmpOptDT a.datetime b.datetime,
    cmpOptStr a.datetime_source b.datetime_source,
    cmpStrList a.errors b.errors]

/-- Python `==` on `PhotoInfo` dataclasses. -/
def pyEqPhotoInfo (a b : PhotoInfo) : Bool :=
  (pathStr a.path == pathStr b.path) &&
  (match a.datetime, b.datetime with
   | none, none => true
   | some u, some v => pyEqDT u v
   | _, _ => false) &&
  (a.datetime_source == b.datetime_source) && (a.errors == b.errors)

/-- Python `a < b` on `RenameTask` dataclasses (field tuple: photo_info,
destination). -/
def pyLtTask (a b : RenameTask) : Except PyExc Bool :=
  chainCmp [cmpField pyEqPhotoInfo pyLtPhotoInfo a.photo_info b.photo_info,
    cmpStr (pathStr a.destination) (pathStr b.destination)]

/-- `PhotoOrganizer.start` through its planning stage (organizer.py lines
188-191) composed with the task runner: observe the events, reconcile
against the filesystem, sort both lists. -/
def organizerFinal (fs : FS) (evts : List (TpeEvent Path RenameTask)) :
    List RenameTask × List PhotoInfo :=
  let r := tpe_submit evts
  let pr := prepare_rename_tasks fs r.1 r.2
  (sortTasks pr.1, sortInfos pr.2)

/-- The rename task a completed item contributes to `rename_tasks`, if any
(the not-exists branch of the reconciler loop). -/
def taskSel (fs : FS) (pt : Path × RenameTask) : Option RenameTask :=
  if fs.fileExists pt.2.destination then none else some pt.2

/-- The skipped entry a completed item contributes, if any (the
exists-but-different-file branch of the reconciler loop). -/
def skipSel (fs : FS) (pt : Path × RenameTask) : Option PhotoInfo :=
  if fs.fileExists pt.2.destination then
    if fs.samefile pt.2.destination pt.2.photo_info.path then none
    else some { pt.2.photo_info with
      errors := pt.2.photo_info.errors ++
        ["Destination already exists: " ++ pathStr pt.2.destination] }
  else none

/-- The skipped entry a failed item contributes. -/
def failSkip (pe : Path × PyExc) : PhotoInfo :=
  PhotoInfo.no_datetime pe.1 (PyExc.reprStr pe.2)

/-- America/Vancouver at PDT (UTC-07:00), the offset in force in the
spec's examples. -/
def vanTz : Timezone := ⟨"America/Vancouver", -25200⟩

/-- A concrete organizer with mtime fallback enabled. -/
def orgM : Organizer := ⟨⟨["dst"]⟩, vanTz, true⟩

/-- A concrete organizer with mtime fallback disabled. -/
def orgNoM : Organizer := ⟨⟨["dst"]⟩, vanTz, false⟩

/-- A screenshot-classified file (by extension and by parent directory) with
empty content and mtime 2023-06-01 12:00:00 local (epoch 1685646000 UTC). -/
def shotFile : MediaFile :=
  ⟨⟨["Screenshots", "a.png"]⟩, [], ⟨none, none, none⟩, 1685646000, []⟩

/-- A `.jpg` file living inside a directory literally named `Screenshots`,
whose EXIF carries a `DateTime` tag. -/
def jpgShot : MediaFile :=
  ⟨⟨["Screenshots", "b.jpg"]⟩, [("DateTime", "2020:01:02 03:04:05")],
    ⟨none, none, none⟩, 0, []⟩

/-- A container file whose `encoded_date` is `UTC 2023-06-01 12:00:00`. -/
def movUtc : MediaFile :=
  ⟨⟨["v.mov"]⟩, [], ⟨none, some "UTC 2023-06-01 12:00:00", none⟩, 0, []⟩

/-- A `.jpg` whose EXIF carries both `DateTimeOriginal` and a different
`DateTime`. -/
def jpgBoth : MediaFile :=
  ⟨⟨["c.jpg"]⟩, [("DateTimeOriginal", "2020:01:02 03:04:05"),
    ("DateTime", "2021:01:01 00:00:00")], ⟨none, none, none⟩, 0, []⟩

/-- A `.jpg` with a naive EXIF datetime and a malformed `OffsetTime`. -/
def jpgBadOffset : MediaFile :=
  ⟨⟨["p.jpg"]⟩, [("DateTime", "2023:06:01 12:00:00"), ("OffsetTime", "bogus")],
    ⟨none, none, none⟩, 0, []⟩

/-- A filesystem on which no destination exists. -/
def emptyFS : FS := ⟨fun _ => false, fun _ _ => false⟩

/-- A concrete rename task used by the reconciler and ordering witnesses. -/
def taskA : RenameTask :=
  ⟨⟨⟨["a.jpg"]⟩, some ⟨1685620800, some vanTz⟩, some "EXIF", []⟩,
    ⟨["dst", "2023", "IMG_a.jpg"]⟩⟩

/-- A second concrete rename task with a distinct path. -/
def taskB : RenameTask :=
  ⟨⟨⟨["b.jpg"]⟩, some ⟨1685620801, some vanTz⟩, some "EXIF", []⟩,
    ⟨["dst", "2023", "IMG_b.jpg"]⟩⟩

/-- A filesystem on which only `taskA`'s destination exists, as a different
file than `taskA`'s source. -/
def fsA : FS := ⟨fun p => p == taskA.destination, fun _ _ => false⟩

/-- Completion event for `taskA`. -/
def evA : TpeEvent Path RenameTask := .done ⟨["a.jpg"]⟩ (.ok taskA)

/-- Completion event for `taskB`. -/
def evB : TpeEvent Path RenameTask := .done ⟨["b.jpg"]⟩ (.ok taskB)

/-- Failure event for a third distinct path. -/
def evC : TpeEvent Path RenameTask := .done ⟨["c.mov"]⟩ (.error (.exception "boom"))

theorem tpeGo_eq {α β : Type} (evts : List (TpeEvent α β)) (c : List (α × β))
    (f : List (α × PyExc)) :
    tpeGo evts c f =
      (c ++ (evts.takeWhile notInterrupt).filterMap doneOk,
       f ++ (evts.takeWhile notInterrupt).filterMap doneErr) := by
  induction evts generalizing c f with
  | nil => simp [tpeGo]
  | cons e rest ih =>
    cases e with
    | done a r =>
      cases r with
      | ok b =>
        simp [tpeGo, ih, List.takeWhile_cons, notInterrupt, doneOk, doneErr,
          List.filterMap_cons]
      | error x =>
        simp [tpeGo, ih, List.takeWhile_cons, notInterrupt, doneOk, doneErr,
          List.filterMap_cons]
    | interrupt =>
      simp [tpeGo, List.takeWhile_cons, notInterrupt]

theorem takeWhile_notInterrupt_append {α β : Type} (pre post : List (TpeEvent α β)) :
    (pre ++ TpeEvent.interrupt :: post).takeWhile notInterrupt =
      pre.takeWhile notInterrupt := by
  induction pre with
  | nil => simp [List.takeWhile_cons, notInterrupt]
  | cons e rest ih =>
    cases e with
    | done a r => simp [List.takeWhile_cons, notInterrupt, ih]
    | interrupt => simp [List.takeWhile_cons, notInterrupt]

theorem takeWhile_notInterrupt_all {α β : Type} (evts : List (TpeEvent α β))
    (h : ∀ e ∈ evts, notInterrupt e = true) :
    evts.takeWhile notInterrupt = evts := by
  induction evts with
  | nil => rfl
  | cons e rest ih =>
    rw [List.takeWhile_cons, if_pos (h e (by simp)),
      ih (fun x hx => h x (by simp [hx]))]

/-- C10: on an external interrupt the concurrent task runner stops consuming
results and returns rather than raising: the returned pair is always exactly
the successes and failures observed before the first interrupt, and every
event after an interrupt is ignored, so nothing already collected is lost or
altered. -/
theorem c10_interrupt_partial_results {α β : Type} (evts : List (TpeEvent α β)) :
    tpe_submit evts =
      ((evts.takeWhile notInterrupt).filterMap doneOk,
       (evts.takeWhile notInterrupt).filterMap doneErr) ∧
    ∀ pre post : List (TpeEvent α β),
      tpe_submit (pre ++ TpeEvent.interrupt :: post) = tpe_submit pre := by
  constructor
  · simpa using tpeGo_eq evts [] []
  · intro pre post
    simp [tpe_submit, tpeGo_eq, takeWhile_notInterrupt_append]

/-- C3: when extraction yields no instant, planning fails hard — with the
exact exception that the task runner captures and the reconciler turns into
a skipped entry — when the mtime fallback is disabled; with the fallback
enabled the plan entry is built from the file's modification time
interpreted in the configured timezone, with source `mtime`. -/
theorem c3_mtime_fallback_gating (org : Organizer) (f : MediaFile)
    (info : PhotoInfo) (h1 : getInfo org f = .ok info)
    (h2 : info.datetime = none) :
    (org.allow_mtime = false →
      get_rename_task org f = .error (.exception
        "Cannot determine datetime from EXIF/MediaInfo. Fallback to mtime is not allowed.") ∧
      ∀ (fs : FS) (c : List (Path × RenameTask)) (fl : List (Path × PyExc)),
        PhotoInfo.no_datetime f.path (PyExc.reprStr (.exception
          "Cannot determine datetime from EXIF/MediaInfo. Fallback to mtime is not allowed."))
          ∈ (prepare_rename_tasks fs c ((f.path, PyExc.exception
            "Cannot determine datetime from EXIF/MediaInfo. Fallback to mtime is not allowed.") :: fl)).2) ∧
    (org.allow_mtime = true →
      get_rename_task org f = .ok ⟨getInfoFromFile org f,
        Path.child (Path.child org.dst_dir (intToStr (parse_timestamp org f.mtimeSec).year))
          (get_deterministic_filename f (parse_timestamp org f.mtimeSec) defaultPfx)⟩ ∧
      (getInfoFromFile org f).datetime = some (parse_timestamp org f.mtimeSec) ∧
      (getInfoFromFile org f).datetime_source = some "mtime" ∧
      (parse_timestamp org f.mtimeSec).tz = some org.timezone) := by
  constructor
  · intro hm
    constructor
    · simp [get_rename_task, h1, h2, hm]
    · intro fs c fl
      simp [prepare_rename_tasks]
  · intro hm
    refine ⟨?_, rfl, rfl, rfl⟩
    simp [get_rename_task, h1, h2, hm, getInfoFromFile]

/-- C3 witness: a screenshot-classified file with mtime fallback disabled is
a hard per-item failure. -/
theorem c3_witness :
    get_rename_task orgNoM shotFile = .error (.exception
      "Cannot determine datetime from EXIF/MediaInfo. Fallback to mtime is not allowed.") :=
  (((c3_mtime_fallback_gating orgNoM shotFile
    (PhotoInfo.no_datetime shotFile.path
      "Datetime extraction is skipped for this type of file")
    (by decide) (by decide)).1) rfl).1

theorem validateInfo_ok {tz : Timezone} {i j : PhotoInfo}
    (h : validateInfo tz i = .ok j) : j = i := by
  unfold validateInfo at h
  split at h
  · simp at h
    exact h.symm
  · split at h
    · simp at h
    · split at h
      · simp at h
        exact h.symm
      · simp at h

theorem pillowNaive_tz {org : Organizer} {f : MediaFile} {ds : String}
    {info : PhotoInfo} {dt : Datetime}
    (h : pillowNaive org f ds = .ok info) (h2 : info.datetime = some dt) :
    dt.tz = some org.timezone := by
  unfold pillowNaive at h
  split at h
  · simp at h
  · rename_i dt0 heq
    split at h
    · simp at h
    · rename_i dtL heqL
      simp at h
      rw [← h] at h2
      simp at h2
      unfold pytzLocalize at heqL
      split at heqL
      · simp at heqL
      · simp at heqL
        rw [← h2, ← heqL]

theorem pillowFinish_tz {org : Organizer} {f : MediaFile} {ds : String}
    {info : PhotoInfo} {dt : Datetime}
    (h : pillowFinish org f ds = .ok info) (h2 : info.datetime = some dt) :
    dt.tz = some org.timezone := by
  unfold pillowFinish at h
  split at h
  · rename_i o heq
    split at h
    · exact pillowNaive_tz h h2
    · split at h
      · simp at h
      · rename_i dt1 heq1
        simp at h
        rw [← h] at h2
        simp at h2
        rw [← h2]
        simp [Datetime.astimezone]
  · exact pillowNaive_tz h h2

theorem pillow_tz {org : Organizer} {f : MediaFile} {info : PhotoInfo}
    {dt : Datetime} (h : getInfoFromPillow org f = .ok info)
    (h2 : info.datetime = some dt) : dt.tz = some org.timezone := by
  unfold getInfoFromPillow at h
  split at h
  · simp at h
    rw [← h] at h2
    simp [PhotoInfo.no_datetime] at h2
  · split at h
    · simp at h
      rw [← h] at h2
      simp [PhotoInfo.no_datetime] at h2
    · exact pillowFinish_tz h h2

theorem miFinish_tz {org : Organizer} {f : MediaFile}
    {r : Except PyExc Datetime} {info : PhotoInfo} {dt : Datetime}
    (h : miFinish org f r = .ok info) (h2 : info.datetime = some dt) :
    dt.tz = some org.timezone := by
  unfold miFinish at h
  split at h
  · simp at h
  · split at h
    · simp at h
      rw [← h] at h2
      simp at h2
      rw [← h2]
      simp [Datetime.astimezone]
    · split at h
      · simp at h
      · simp at h
        rw [← h] at h2
        simp at h2
        rw [← h2]
        simp [Datetime.astimezone]

theorem mediainfo_tz {org : Organizer} {f : MediaFile} {info : PhotoInfo}
    {dt : Datetime} (h : getInfoFromMediainfo org f = .ok info)
    (h2 : info.datetime = some dt) : dt.tz = some org.timezone := by
  simp only [getInfoFromMediainfo] at h
  split at h
  · exact miFinish_tz h h2
  · split at h
    · split at h
      · exact miFinish_tz h h2
      · simp at h
    · simp at h
      rw [← h] at h2
      simp [PhotoInfo.no_datetime] at h2

/-- C8: every `PhotoInfo` leaving the extraction stage with an instant
carries an aware instant in exactly the configured timezone — this holds for
`get_info`'s result and for the mtime extractor — and the caller's
validation turns any violating result into an `AssertionError` (a raised
contract failure), never into a skip-with-reason result. -/
theorem c8_timezone_invariant :
    (∀ (org : Organizer) (f : MediaFile) (info : PhotoInfo) (dt : Datetime),
      getInfo org f = .ok info → info.datetime = some dt →
      dt.tz = some org.timezone) ∧
    (∀ (org : Organizer) (f : MediaFile) (dt : Datetime),
      (getInfoFromFile org f).datetime = some dt → dt.tz = some org.timezone) ∧
    (∀ (tz : Timezone) (info : PhotoInfo) (dt : Datetime),
      info.datetime = some dt → dt.tz = none →
      validateInfo tz info = .error (.assertionError "timezone does not exist")) ∧
    (∀ (tz : Timezone) (info : PhotoInfo) (dt : Datetime) (t : Timezone),
      info.datetime = some dt → dt.tz = some t → t.name ≠ tz.name →
      validateInfo tz info = .error (.assertionError "timezone does not match")) := by
  refine ⟨?_, ?_, ?_, ?_⟩
  · intro org f info dt h h2
    unfold getInfo at h
    split at h
    · simp at h
    · rename_i info0 heq
      have hji := validateInfo_ok h
      subst hji
      simp only [getInfoRaw] at heq
      split at heq
      · exact pillow_tz heq h2
      · split at heq
        · exact mediainfo_tz heq h2
        · split at heq
          · simp at heq
            rw [← heq] at h2
            simp [PhotoInfo.no_datetime] at h2
          · simp at heq
  · intro org f dt h
    simp only [getInfoFromFile, Option.some.injEq] at h
    rw [← h]
    rfl
  · intro tz info dt h h2
    simp [validateInfo, h, h2]
  · intro tz info dt t h h2 h3
    simp [validateInfo, h, h2, h3]

/-- C8 witness: a concrete EXIF extraction carries the configured timezone,
and a concrete violating result trips the assertion. -/
theorem c8_witness :
    (⟨secOfCivil 2020 1 2 3 4 5, some vanTz⟩ : Datetime).tz = some orgM.timezone ∧
    validateInfo vanTz ⟨⟨["x.jpg"]⟩, some ⟨0, some utcTz⟩, some "EXIF", []⟩ =
      .error (.assertionError "timezone does not match") := by
  constructor
  · exact c8_timezone_invariant.1 orgM jpgShot
      ⟨⟨["Screenshots", "b.jpg"]⟩, some ⟨secOfCivil 2020 1 2 3 4 5, some vanTz⟩,
        some "EXIF", []⟩ ⟨secOfCivil 2020 1 2 3 4 5, some vanTz⟩
      (by decide) (by decide)
  · exact c8_timezone_invariant.2.2.2 vanTz
      ⟨⟨["x.jpg"]⟩, some ⟨0, some utcTz⟩, some "EXIF", []⟩ ⟨0, some utcTz⟩ utcTz
      rfl rfl (by decide)

/-- C4: the EXIF datetime is the first truthy entry of `DateTimeOriginal`,
`DateTimeDigitized`, `DateTime` in that order (so a set `DateTimeOriginal`
beats any `DateTime`); when none is selected the result is the no-datetime
skip with reason `EXIF exists but no datetime found`; a selected string is
truncated to 19 characters and its first two colons (the date-part colons)
normalized to dashes before the ISO parse stage. -/
theorem c4_exif_datetime_selection :
    (∀ (exif : List (String × String)) (s : String),
      exifGet exif "DateTimeOriginal" = some s → s ≠ "" →
      selectExifDT exif = some s) ∧
    (∀ (org : Organizer) (f : MediaFile),
      f.exif.isEmpty = false → selectExifDT f.exif = none →
      getInfoFromPillow org f =
        .ok (PhotoInfo.no_datetime f.path "EXIF exists but no datetime found")) ∧
    (∀ (org : Organizer) (f : MediaFile) (s : String),
      f.exif.isEmpty = false → selectExifDT f.exif = some s →
      getInfoFromPillow org f = pillowFinish org f (replaceColons2 (takeChars 19 s))) ∧
    (∀ (org : Organizer) (f : MediaFile) (ds : String) (dt0 : Datetime),
      exifOffsetNorm f.exif = none → isoparse ds = .ok dt0 → dt0.tz = none →
      pillowFinish org f ds =
        .ok ⟨f.path, some ⟨dt0.localSec, some org.timezone⟩, some "EXIF", []⟩) := by
  refine ⟨?_, ?_, ?_, ?_⟩
  · intro exif s h hs
    simp [selectExifDT, pyOrStr, h, hs]
  · intro org f h1 h2
    simp [getInfoFromPillow, h1, h2]
  · intro org f s h1 h2
    simp [getInfoFromPillow, h1, h2]
  · intro org f ds dt0 h1 h2 h3
    simp [pillowFinish, pillowNaive, pytzLocalize, h1, h2, h3]

/-- C4 witness: with both `DateTimeOriginal` and a different `DateTime` set,
the selection is `DateTimeOriginal`, and the pipeline feeds its truncated,
colon-normalized form to the parse stage. -/
theorem c4_witness :
    selectExifDT jpgBoth.exif = some "2020:01:02 03:04:05" ∧
    getInfoFromPillow orgM jpgBoth =
      pillowFinish orgM jpgBoth (replaceColons2 (takeChars 19 "2020:01:02 03:04:05")) := by
  constructor
  · exact c4_exif_datetime_selection.1 jpgBoth.exif "2020:01:02 03:04:05"
      (by decide) (by decide)
  · exact c4_exif_datetime_selection.2.2.1 orgM jpgBoth "2020:01:02 03:04:05"
      (by decide) (by decide)

/-- C5: the EXIF offset is selected from `OffsetTimeOriginal`,
`OffsetTimeDigitized`, `OffsetTime` in that order, reading only the offset
tags (independently of which datetime tag was selected); a selected value
not matching `[+-]HH:MM` is discarded and the datetime treated as
naive-local; a matching offset is appended and the aware parse converted to
the configured timezone; with no offset the naive datetime keeps its clock
face and is localized to the configured timezone (not UTC). -/
theorem c5_exif_offset_handling :
    (∀ (exif : List (String × String)) (o : String),
      exifGet exif "OffsetTimeOriginal" = some o → o ≠ "" →
      selectExifOffset exif = some o) ∧
    (∀ (e1 e2 : List (String × String)),
      exifGet e1 "OffsetTimeOriginal" = exifGet e2 "OffsetTimeOriginal" →
      exifGet e1 "OffsetTimeDigitized" = exifGet e2 "OffsetTimeDigitized" →
      exifGet e1 "OffsetTime" = exifGet e2 "OffsetTime" →
      selectExifOffset e1 = selectExifOffset e2) ∧
    (∀ (org : Organizer) (f : MediaFile) (ds o : String),
      selectExifOffset f.exif = some o → offsetPrefixOk o = false →
      pillowFinish org f ds = pillowNaive org f ds) ∧
    (∀ (org : Organizer) (f : MediaFile) (ds o : String),
      selectExifOffset f.exif = some o → offsetPrefixOk o = true →
      pillowFinish org f ds =
        (match isoparse (ds ++ o) with
         | .error e => .error e
         | .ok dt => .ok ⟨f.path, some (dt.astimezone org.timezone), some "EXIF", []⟩)) ∧
    (∀ (org : Organizer) (f : MediaFile) (ds : String) (dt0 : Datetime),
      selectExifOffset f.exif = none → isoparse ds = .ok dt0 → dt0.tz = none →
      pillowFinish org f ds =
        .ok ⟨f.path, some ⟨dt0.localSec, some org.timezone⟩, some "EXIF", []⟩) := by
  refine ⟨?_, ?_, ?_, ?_, ?_⟩
  · intro exif o h ho
    simp [selectExifOffset, pyOrStr, h, ho]
  · intro e1 e2 h1 h2 h3
    simp [selectExifOffset, h1, h2, h3]
  · intro org f ds o h1 h2
    simp [pillowFinish, exifOffsetNorm, h1, h2]
  · intro org f ds o h1 h2
    have ho : o ≠ "" := by
      intro he
      rw [he] at h2
      simp [offsetPrefixOk] at h2
    simp [pillowFinish, exifOffsetNorm, h1, h2, ho]
  · intro org f ds dt0 h1 h2 h3
    simp [pillowFinish, exifOffsetNorm, pillowNaive, pytzLocalize, h1, h2, h3]

/-- C5 witness: a malformed `OffsetTime` is discarded and the naive EXIF
datetime `2023:06:01 12:00:00` with timezone America/Vancouver comes out as
noon local (UTC-07:00), not noon UTC. -/
theorem c5_witness :
    pillowFinish orgM jpgBadOffset "2023-06-01 12:00:00" =
      pillowNaive orgM jpgBadOffset "2023-06-01 12:00:00" ∧
    getInfoFromPillow orgM jpgBadOffset =
      .ok ⟨⟨["p.jpg"]⟩, some ⟨1685620800, some vanTz⟩, some "EXIF", []⟩ := by
  constructor
  · exact c5_exif_offset_handling.2.2.1 orgM jpgBadOffset
      "2023-06-01 12:00:00" "bogus" (by decide) (by decide)
  · decide

/-- C6: the container extractor prefers a truthy
`com.apple.quicktime.creationdate`; otherwise the first truthy of
`encoded_date`/`tagged_date` must carry a `UTC` prefix or suffix (else an
assertion failure), which is stripped before parsing; with neither field the
result is the `Cannot extract datetime from MediaInfo` skip; a parsed aware
instant is converted to the configured timezone and a naive one is localized
as UTC then converted — concretely, `UTC 2023-06-01 12:00:00` with
America/Vancouver yields local 2023-06-01 05:00:00 at offset -07:00. -/
theorem c6_mediainfo_extraction :
    (∀ (org : Organizer) (f : MediaFile) (s : String),
      f.track.comapplequicktimecreationdate = some s → s ≠ "" →
      getInfoFromMediainfo org f = miFinish org f (isoparse s)) ∧
    (∀ (org : Organizer) (f : MediaFile) (s : String),
      truthyStr f.track.comapplequicktimecreationdate = false →
      pyOrStr f.track.encoded_date f.track.tagged_date = some s → s ≠ "" →
      (strStarts "UTC" s || strEnds "UTC" s) = false →
      getInfoFromMediainfo org f =
        .error (.assertionError "encoded_date/tagged_date should have UTC marking")) ∧
    (∀ (org : Organizer) (f : MediaFile) (s : String),
      truthyStr f.track.comapplequicktimecreationdate = false →
      pyOrStr f.track.encoded_date f.track.tagged_date = some s → s ≠ "" →
      (strStarts "UTC" s || strEnds "UTC" s) = true →
      getInfoFromMediainfo org f =
        miFinish org f (isoparse (stripSpaces (removeSuf "UTC" (removePre "UTC" s))))) ∧
    (∀ (org : Organizer) (f : MediaFile),
      truthyStr f.track.comapplequicktimecreationdate = false →
      truthyStr (pyOrStr f.track.encoded_date f.track.tagged_date) = false →
      getInfoFromMediainfo org f =
        .ok (PhotoInfo.no_datetime f.path "Cannot extract datetime from MediaInfo")) ∧
    (∀ (org : Organizer) (f : MediaFile) (dt : Datetime),
      (dt.tz.isSome = true →
        miFinish org f (.ok dt) =
          .ok ⟨f.path, some (dt.astimezone org.timezone), some "MediaInfo", []⟩) ∧
      (dt.tz = none →
        miFinish org f (.ok dt) =
          .ok ⟨f.path, some ((⟨dt.localSec, some utcTz⟩ : Datetime).astimezone org.timezone),
            some "MediaInfo", []⟩)) ∧
    (getInfoFromMediainfo orgM movUtc =
      .ok ⟨⟨["v.mov"]⟩, some ⟨1685595600, some vanTz⟩, some "MediaInfo", []⟩ ∧
      civilOfSec 1685595600 = (2023, 6, 1, 5, 0, 0) ∧ vanTz.offsetSec = -25200) := by
  refine ⟨?_, ?_, ?_, ?_, ?_, ?_⟩
  · intro org f s h hs
    simp [getInfoFromMediainfo, truthyStr, h, hs]
  · intro org f s h1 h2 h3 h4
    have ht : truthyStr (some s) = true := by simp [truthyStr, h3]
    simp [getInfoFromMediainfo, h1, h2, h4, ht]
  · intro org f s h1 h2 h3 h4
    have ht : truthyStr (some s) = true := by simp [truthyStr, h3]
    simp [getInfoFromMediainfo, h1, h2, h4, ht]
  · intro org f h1 h2
    simp [getInfoFromMediainfo, h1, h2]
  · intro org f dt
    constructor
    · intro h
      simp [miFinish, h]
    · intro h
      simp [miFinish, pytzLocalize, h]
  · exact ⟨by decide, by decide, by decide⟩

/-- C6 witness: the spec's concrete container example, obtained by applying
the extractor theorem at `movUtc`. -/
theorem c6_witness :
    getInfoFromMediainfo orgM movUtc =
      miFinish orgM movUtc
        (isoparse (stripSpaces (removeSuf "UTC" (removePre "UTC" "UTC 2023-06-01 12:00:00")))) :=
  c6_mediainfo_extraction.2.2.1 orgM movUtc "UTC 2023-06-01 12:00:00"
    (by decide) (by decide) (by decide) (by decide)

/-- C1 (evaluation at the failing input): for a screenshot-classified file
(`Screenshots/a.png`, mtime 2023-06-01 12:00:00 local, empty content) the
planned destination is `dst/2023/IMG_20230601_120000_da39a3e.png` — built as
`dst_root/{year}/{DEFAULT_PREFIX}{%Y%m%d_%H%M%S}_{first 7 sha1 hex}{lower
ext}`.  `_get_rename_task` never passes a prefix argument, so the
screenshot-specific literal from constants.py is not applied and the file
gets `IMG_`, contradicting the claimed `Screenshot_` prefix. -/
theorem c1_screenshot_destination_eval :
    get_rename_task orgM shotFile =
      .ok ⟨⟨⟨["Screenshots", "a.png"]⟩, some ⟨1685620800, some vanTz⟩, some "mtime", []⟩,
        ⟨["dst", "2023", "IMG_20230601_120000_da39a3e.png"]⟩⟩ ∧
    "IMG_20230601_120000_da39a3e.png" =
      defaultPfx ++ (⟨1685620800, some vanTz⟩ : Datetime).strftimeCompact ++ "_" ++
        takeChars 7 (sha1Hex shotFile.content) ++ Path.suffixLower shotFile.path ∧
    Path.suffixLower shotFile.path ∈ screenshotExts ∧
    strStarts screenshotPfx "IMG_20230601_120000_da39a3e.png" = false ∧
    strStarts defaultPfx "IMG_20230601_120000_da39a3e.png" = true := by
  refine ⟨?_, ?_, by decide, by decide, by decide⟩
  · set_option maxRecDepth 20000 in decide
  · set_option maxRecDepth 20000 in decide

/-- C2 counterexample: a `.jpg` inside a directory literally named
`Screenshots` is dispatched to the EXIF extractor and yields a datetime —
not the claimed unconditional no-datetime skip — and a single-file source
whose extension is not allowed is still yielded into the batch by
`iter_photo`, not excluded. -/
theorem c2_counterexample :
    getInfo orgM jpgShot =
      .ok ⟨⟨["Screenshots", "b.jpg"]⟩, some ⟨secOfCivil 2020 1 2 3 4 5, some vanTz⟩,
        some "EXIF", []⟩ ∧
    (some (⟨secOfCivil 2020 1 2 3 4 5, some vanTz⟩ : Datetime) ≠ (none : Option Datetime)) ∧
    jpgShot.path.parts = ["Screenshots", "b.jpg"] ∧
    iterPhoto (.file ⟨["foo.txt"]⟩) = [⟨["foo.txt"]⟩] ∧
    allowedExts.contains (Path.suffixLower ⟨["foo.txt"]⟩) = false := by
  exact ⟨by decide, by decide, by decide, by decide, by decide⟩

/-- C2 (amended): dispatch is purely by lowercased extension — image
extensions go to the EXIF extractor, container extensions to the
container extractor, screenshot-type extensions yield the no-datetime skip;
the parent-directory name is never consulted; any other extension raises
`RuntimeError` at dispatch (a per-item failure).  A directory-tree source
excludes other extensions from the batch, but a single-file source is
yielded regardless of its extension. -/
theorem c2_dispatch_by_extension :
    (∀ (org : Organizer) (f : MediaFile),
      pillowExts.contains (Path.suffixLower f.path) = true →
      getInfo org f = (match getInfoFromPillow org f with
        | .error e => .error e
        | .ok i => validateInfo org.timezone i)) ∧
    (∀ (org : Organizer) (f : MediaFile),
      pillowExts.contains (Path.suffixLower f.path) = false →
      mediainfoExts.contains (Path.suffixLower f.path) = true →
      getInfo org f = (match getInfoFromMediainfo org f with
        | .error e => .error e
        | .ok i => validateInfo org.timezone i)) ∧
    (∀ (org : Organizer) (f : MediaFile),
      pillowExts.contains (Path.suffixLower f.path) = false →
      mediainfoExts.contains (Path.suffixLower f.path) = false →
      screenshotExts.contains (Path.suffixLower f.path) = true →
      getInfo org f = .ok (PhotoInfo.no_datetime f.path
        "Datetime extraction is skipped for this type of file")) ∧
    (∀ (org : Organizer) (f : MediaFile),
      allowedExts.contains (Path.suffixLower f.path) = false →
      getInfo org f =
        .error (.runtimeError ("Unexpected extension: " ++ pathStr f.path))) ∧
    (∀ ext : String, ext ∈ allowedExts ↔
      ext ∈ pillowExts ∨ ext ∈ mediainfoExts ∨ ext ∈ screenshotExts) ∧
    (∀ p : Path, iterPhoto (.file p) = [p]) ∧
    (∀ (entries : List Path) (p : Path),
      p ∈ iterPhoto (.tree entries) ↔
        p ∈ entries ∧ allowedExts.contains (Path.suffixLower p) = true) := by
  refine ⟨?_, ?_, ?_, ?_, ?_, ?_, ?_⟩
  · intro org f h
    have h' : Path.suffixLower f.path ∈ pillowExts := by simpa using h
    simp [getInfo, getInfoRaw, h']
  · intro org f h1 h2
    have h1' : Path.suffixLower f.path ∉ pillowExts := by simpa using h1
    have h2' : Path.suffixLower f.path ∈ mediainfoExts := by simpa using h2
    simp [getInfo, getInfoRaw, h1', h2']
  · intro org f h1 h2 h3
    have h1' : Path.suffixLower f.path ∉ pillowExts := by simpa using h1
    have h2' : Path.suffixLower f.path ∉ mediainfoExts := by simpa using h2
    have h3' : Path.suffixLower f.path ∈ screenshotExts := by simpa using h3
    simp [getInfo, getInfoRaw, h1', h2', h3', validateInfo, PhotoInfo.no_datetime]
  · intro org f h
    have h' : Path.suffixLower f.path ∉ allowedExts := by simpa using h
    rw [show allowedExts = pillowExts ++ mediainfoExts ++ screenshotExts from rfl] at h'
    simp only [List.mem_append, not_or] at h'
    simp [getInfo, getInfoRaw, h'.1.1, h'.1.2, h'.2]
  · intro ext
    rw [show allowedExts = pillowExts ++ mediainfoExts ++ screenshotExts from rfl]
    simp [List.mem_append, or_assoc]
  · intro p
    rfl
  · intro entries p
    simp [iterPhoto, List.mem_filter]

/-- C2 witness for the amended dispatch: the screenshot-extension branch at
a concrete file. -/
theorem c2_witness :
    getInfo orgM shotFile = .ok (PhotoInfo.no_datetime shotFile.path
      "Datetime extraction is skipped for this type of file") :=
  c2_dispatch_by_extension.2.2.1 orgM shotFile (by decide) (by decide) (by decide)

theorem prepare_foldl_eq (fs : FS) (c : List (Path × RenameTask))
    (acc : List RenameTask × List PhotoInfo) :
    c.foldl (prepareStep fs) acc =
      (acc.1 ++ c.filterMap (taskSel fs), acc.2 ++ c.filterMap (skipSel fs)) := by
  induction c generalizing acc with
  | nil => simp
  | cons pt rest ih =>
    rw [List.foldl_cons, ih]
    unfold prepareStep taskSel skipSel
    by_cases he : fs.fileExists pt.2.destination
    · by_cases hs : fs.samefile pt.2.destination pt.2.photo_info.path
      · simp [he, hs]
      · simp [he, hs]
    · simp [he]

theorem prepare_eq (fs : FS) (c : List (Path × RenameTask))
    (failed : List (Path × PyExc)) :
    prepare_rename_tasks fs c failed =
      (c.filterMap (taskSel fs), c.filterMap (skipSel fs) ++ failed.map failSkip) := by
  unfold prepare_rename_tasks failSkip
  rw [prepare_foldl_eq]
  simp

/-- C7: reconciliation of each completed candidate against the filesystem —
destination exists and is the same file: silently dropped (in neither list,
so a fully already-organized batch yields zero rename tasks); destination
exists as a different file: skipped with the explicit already-exists reason;
destination absent: planned; and every failed item becomes a skipped entry
carrying `repr` of its error. -/
theorem c7_reconcile_destinations (fs : FS) (c : List (Path × RenameTask))
    (failed : List (Path × PyExc))
    (hw : ∀ pt ∈ c, (pt.2).photo_info.path = pt.1)
    (hnd : (c.map (fun pt => pathKey pt.1) ++
      failed.map (fun pe => pathKey pe.1)).Nodup) :
    (∀ pt ∈ c, fs.fileExists pt.2.destination = true →
      fs.samefile pt.2.destination pt.2.photo_info.path = true →
      pt.2 ∉ (prepare_rename_tasks fs c failed).1 ∧
      ∀ i ∈ (prepare_rename_tasks fs c failed).2, i.path ≠ pt.1) ∧
    (∀ pt ∈ c, fs.fileExists pt.2.destination = true →
      fs.samefile pt.2.destination pt.2.photo_info.path = false →
      { pt.2.photo_info with errors := pt.2.photo_info.errors ++
          ["Destination already exists: " ++ pathStr pt.2.destination] }
        ∈ (prepare_rename_tasks fs c failed).2) ∧
    (∀ pt ∈ c, fs.fileExists pt.2.destination = false →
      pt.2 ∈ (prepare_rename_tasks fs c failed).1) ∧
    (∀ pe ∈ failed, PhotoInfo.no_datetime pe.1 (PyExc.reprStr pe.2)
      ∈ (prepare_rename_tasks fs c failed).2) ∧
    ((∀ pt ∈ c, fs.fileExists pt.2.destination = true ∧
        fs.samefile pt.2.destination pt.2.photo_info.path = true) →
      (prepare_rename_tasks fs c failed).1 = [] ∧
      (prepare_rename_tasks fs c failed).2 = failed.map failSkip) := by
  rw [prepare_eq]
  have hndc : (c.map (fun pt => pathKey pt.1)).Nodup :=
    ((List.nodup_append).mp hnd).1
  have hdisj : (c.map (fun pt => pathKey pt.1)).Disjoint
      (failed.map (fun pe => pathKey pe.1)) :=
    ((List.nodup_append).mp hnd).2.2
  refine ⟨?_, ?_, ?_, ?_, ?_⟩
  · intro pt hpt he hs
    constructor
    · intro hmem
      rcases List.mem_filterMap.mp hmem with ⟨a, ha, hsel⟩
      unfold taskSel at hsel
      split at hsel
      · simp at hsel
      · rename_i hnex
        simp only [Option.some.injEq] at hsel
        rw [hsel] at hnex
        rw [he] at hnex
        exact hnex rfl
    · intro i hi
      rcases List.mem_append.mp hi with hi1 | hi2
      · rcases List.mem_filterMap.mp hi1 with ⟨a, ha, hsel⟩
        unfold skipSel at hsel
        split at hsel
        · split at hsel
          · simp at hsel
          · rename_i hex hnsame
            simp only [Option.some.injEq] at hsel
            intro hpath
            have hia : i.path = a.2.photo_info.path := by rw [← hsel]
            have hka : pathKey a.1 = pathKey pt.1 := by
              rw [← hw a ha, ← hia, hpath]
            have hae : a = pt := List.inj_on_of_nodup_map hndc ha hpt hka
            rw [hae] at hnsame
            rw [hs] at hnsame
            exact hnsame rfl
        · simp at hsel
      · rcases List.mem_map.mp hi2 with ⟨pe, hpe, hsel⟩
        intro hpath
        have hk : pathKey pe.1 = pathKey pt.1 := by
          rw [← hsel] at hpath
          simp only [failSkip, PhotoInfo.no_datetime] at hpath
          rw [hpath]
        exact hdisj (List.mem_map_of_mem _ hpt) (hk ▸ List.mem_map_of_mem _ hpe)
  · intro pt hpt he hs
    refine List.mem_append.mpr (Or.inl (List.mem_filterMap.mpr ⟨pt, hpt, ?_⟩))
    unfold skipSel
    rw [he, hs]
    simp
  · intro pt hpt he
    refine List.mem_filterMap.mpr ⟨pt, hpt, ?_⟩
    unfold taskSel
    rw [he]
    simp
  · intro pe hpe
    exact List.mem_append.mpr (Or.inr (List.mem_map.mpr ⟨pe, hpe, rfl⟩))
  · intro hallc
    constructor
    · refine List.filterMap_eq_nil_iff.mpr ?_
      intro a ha
      unfold taskSel
      rw [(hallc a ha).1]
      simp
    · have : c.filterMap (skipSel fs) = [] := by
        refine List.filterMap_eq_nil_iff.mpr ?_
        intro a ha
        unfold skipSel
        rw [(hallc a ha).1, (hallc a ha).2]
        simp
      rw [this]
      simp

/-- C7 witness: a batch where `taskA` collides with an existing different
file, `taskB`'s destination is free, and one failed item. -/
theorem c7_witness :
    ({ taskA.photo_info with errors :=
        ["Destination already exists: " ++ pathStr taskA.destination] }
      ∈ (prepare_rename_tasks fsA [(⟨["a.jpg"]⟩, taskA), (⟨["b.jpg"]⟩, taskB)]
          [(⟨["c.mov"]⟩, .exception "boom")]).2) ∧
    taskB ∈ (prepare_rename_tasks fsA [(⟨["a.jpg"]⟩, taskA), (⟨["b.jpg"]⟩, taskB)]
      [(⟨["c.mov"]⟩, .exception "boom")]).1 ∧
    PhotoInfo.no_datetime ⟨["c.mov"]⟩ (PyExc.reprStr (.exception "boom"))
      ∈ (prepare_rename_tasks fsA [(⟨["a.jpg"]⟩, taskA), (⟨["b.jpg"]⟩, taskB)]
          [(⟨["c.mov"]⟩, .exception "boom")]).2 := by
  have h := c7_reconcile_destinations fsA
    [(⟨["a.jpg"]⟩, taskA), (⟨["b.jpg"]⟩, taskB)]
    [(⟨["c.mov"]⟩, .exception "boom")] (by decide) (by decide)
  exact ⟨h.2.1 (⟨["a.jpg"]⟩, taskA) (by simp) (by decide) (by decide),
    h.2.2.1 (⟨["b.jpg"]⟩, taskB) (by simp) (by decide),
    h.2.2.2.1 (⟨["c.mov"]⟩, .exception "boom") (by simp)⟩

theorem taskLe_trans (a b c : RenameTask) (h1 : taskLe a b = true)
    (h2 : taskLe b c = true) : taskLe a c = true := by
  simp only [taskLe, decide_eq_true_eq] at *
  exact le_trans h1 h2

theorem taskLe_total (a b : RenameTask) : (taskLe a b || taskLe b a) = true := by
  simp only [taskLe, Bool.or_eq_true, decide_eq_true_eq]
  exact le_total _ _

theorem infoLe_trans (a b c : PhotoInfo) (h1 : infoLe a b = true)
    (h2 : infoLe b c = true) : infoLe a c = true := by
  simp only [infoLe, decide_eq_true_eq] at *
  exact le_trans h1 h2

theorem infoLe_total (a b : PhotoInfo) : (infoLe a b || infoLe b a) = true := by
  simp only [infoLe, Bool.or_eq_true, decide_eq_true_eq]
  exact le_total _ _

theorem sorted_perm_key_eq {γ : Type} (key : γ → List Char) :
    ∀ l₁ l₂ : List γ, l₁.Perm l₂ →
      l₁.Pairwise (fun a b => key a ≤ key b) →
      l₂.Pairwise (fun a b => key a ≤ key b) →
      (l₁.map key).Nodup → l₁ = l₂ := by
  intro l₁
  induction l₁ with
  | nil =>
    intro l₂ hp _ _ _
    exact (hp.symm.eq_nil).symm ▸ rfl
  | cons a t ih =>
    intro l₂ hp hs1 hs2 hnd
    cases l₂ with
    | nil => exact absurd hp.eq_nil (by simp)
    | cons b t₂ =>
      by_cases hab : a = b
      · subst hab
        have hp' := hp.cons_inv
        have ht : t = t₂ := ih t₂ hp' (List.pairwise_cons.mp hs1).2
          (List.pairwise_cons.mp hs2).2 (by simpa using (List.nodup_cons.mp (by simpa using hnd)).2)
        rw [ht]
      · exfalso
        have hbmem : b ∈ a :: t := hp.mem_iff.mpr (by simp)
        have hbt : b ∈ t := by
          rcases List.mem_cons.mp hbmem with h | h
          · exact absurd h.symm hab
          · exact h
        have hamem : a ∈ b :: t₂ := hp.mem_iff.mp (by simp)
        have hat2 : a ∈ t₂ := by
          rcases List.mem_cons.mp hamem with h | h
          · exact absurd h hab
          · exact h
        have h1 : key a ≤ key b := (List.pairwise_cons.mp hs1).1 b hbt
        have h2 : key b ≤ key a := (List.pairwise_cons.mp hs2).1 a hat2
        have hk : key a = key b := le_antisymm h1 h2
        have hmapmem : key b ∈ t.map key := List.mem_map_of_mem key hbt
        have hnotin : key a ∉ t.map key := (List.nodup_cons.mp (by simpa using hnd)).1
        exact hnotin (hk ▸ hmapmem)

theorem mergeSort_key_eq {γ : Type} (key : γ → List Char) (l₁ l₂ : List γ)
    (hp : l₁.Perm l₂) (hnd : (l₁.map key).Nodup) :
    l₁.mergeSort (fun a b => decide (key a ≤ key b)) =
      l₂.mergeSort (fun a b => decide (key a ≤ key b)) := by
  have htr : ∀ a b c : γ, decide (key a ≤ key b) = true →
      decide (key b ≤ key c) = true → decide (key a ≤ key c) = true := by
    intro a b c h1 h2
    simp only [decide_eq_true_eq] at *
    exact le_trans h1 h2
  have hto : ∀ a b : γ, (decide (key a ≤ key b) || decide (key b ≤ key a)) = true := by
    intro a b
    simp only [Bool.or_eq_true, decide_eq_true_eq]
    exact le_total _ _
  apply sorted_perm_key_eq key
  · exact ((List.mergeSort_perm l₁ _).trans hp).trans (List.mergeSort_perm l₂ _).symm
  · exact (List.sorted_mergeSort htr hto l₁).imp (fun h => of_decide_eq_true h)
  · exact (List.sorted_mergeSort htr hto l₂).imp (fun h => of_decide_eq_true h)
  · exact (((List.mergeSort_perm l₁ _).map key).nodup_iff).mpr hnd

theorem tpe_submit_no_interrupt {α β : Type} (evts : List (TpeEvent α β))
    (hall : ∀ e ∈ evts, notInterrupt e = true) :
    tpe_submit evts = (evts.filterMap doneOk, evts.filterMap doneErr) := by
  have h := tpeGo_eq evts [] []
  rw [takeWhile_notInterrupt_all evts hall] at h
  simpa [tpe_submit] using h

theorem organizerFinal_eq (fs : FS) (evts : List (TpeEvent Path RenameTask))
    (hall : ∀ e ∈ evts, notInterrupt e = true) :
    organizerFinal fs evts =
      (sortTasks ((evts.filterMap doneOk).filterMap (taskSel fs)),
       sortInfos ((evts.filterMap doneOk).filterMap (skipSel fs) ++
         (evts.filterMap doneErr).map failSkip)) := by
  simp only [organizerFinal]
  rw [tpe_submit_no_interrupt evts hall, prepare_eq]

theorem taskSel_keys_sublist (fs : FS) (c : List (Path × RenameTask))
    (hw : ∀ pt ∈ c, (pt.2).photo_info.path = pt.1) :
    ((c.filterMap (taskSel fs)).map taskKey).Sublist
      (c.map (fun pt => pathKey pt.1)) := by
  induction c with
  | nil => simp
  | cons pt rest ih =>
    have hw' : ∀ q ∈ rest, (q.2).photo_info.path = q.1 :=
      fun q hq => hw q (by simp [hq])
    have hpt := hw pt (by simp)
    rw [List.filterMap_cons]
    cases htask : taskSel fs pt with
    | none =>
      simp only [List.map_cons]
      exact (ih hw').cons _
    | some t =>
      have ht : t = pt.2 := by
        unfold taskSel at htask
        split at htask
        · simp at htask
        · simpa using htask.symm
      subst ht
      simp only [List.map_cons]
      have hkey : taskKey pt.2 = pathKey pt.1 := by
        simp only [taskKey, infoKey, hpt]
      rw [hkey]
      exact (ih hw').cons₂ _

theorem skipSel_keys_sublist (fs : FS) (c : List (Path × RenameTask))
    (hw : ∀ pt ∈ c, (pt.2).photo_info.path = pt.1) :
    ((c.filterMap (skipSel fs)).map infoKey).Sublist
      (c.map (fun pt => pathKey pt.1)) := by
  induction c with
  | nil => simp
  | cons pt rest ih =>
    have hw' : ∀ q ∈ rest, (q.2).photo_info.path = q.1 :=
      fun q hq => hw q (by simp [hq])
    have hpt := hw pt (by simp)
    rw [List.filterMap_cons]
    cases hskip : skipSel fs pt with
    | none =>
      simp only [List.map_cons]
      exact (ih hw').cons _
    | some i =>
      have hi : i.path = pt.1 := by
        unfold skipSel at hskip
        split at hskip
        · split at hskip
          · simp at hskip
          · rw [← hpt]
            rw [← Option.some.inj hskip]
        · simp at hskip
      simp only [List.map_cons]
      have hkey : infoKey i = pathKey pt.1 := by
        simp only [infoKey, hi]
      rw [hkey]
      exact (ih hw').cons₂ _

theorem failSkip_keys (failed : List (Path × PyExc)) :
    (failed.map failSkip).map infoKey = failed.map (fun pe => pathKey pe.1) := by
  simp [List.map_map, Function.comp, failSkip, infoKey, PhotoInfo.no_datetime]

theorem pyEqPhotoInfo_self (a : PhotoInfo) : pyEqPhotoInfo a a = true := by
  rcases a with ⟨p, dt, src, errs⟩
  cases dt with
  | none => simp [pyEqPhotoInfo]
  | some d =>
    cases htz : d.tz with
    | none => simp [pyEqPhotoInfo, pyEqDT, htz]
    | some t => simp [pyEqPhotoInfo, pyEqDT, htz]

theorem pyLtPhotoInfo_self (a : PhotoInfo) : pyLtPhotoInfo a a = .ok false := by
  rcases a with ⟨p, dt, src, errs⟩
  cases dt with
  | none =>
    cases src <;> simp [pyLtPhotoInfo, chainCmp, cmpStr, cmpField, cmpOptDT, cmpOptStr,
      cmpStrList]
  | some d =>
    cases htz : d.tz with
    | none =>
      cases src <;> simp [pyLtPhotoInfo, chainCmp, cmpStr, cmpField, cmpOptDT, cmpOptStr,
        cmpStrList, pyEqDT, htz]
    | some t =>
      cases src <;> simp [pyLtPhotoInfo, chainCmp, cmpStr, cmpField, cmpOptDT, cmpOptStr,
        cmpStrList, pyEqDT, htz]

theorem pyLtTask_self (a : RenameTask) : pyLtTask a a = .ok false := by
  simp [pyLtTask, chainCmp, cmpField, cmpStr, pyEqPhotoInfo_self a.photo_info]

theorem pyLtPhotoInfo_of_ne {a b : PhotoInfo}
    (h : pathStr a.path ≠ pathStr b.path) :
    pyLtPhotoInfo a b = .ok (decide ((pathStr a.path).data < (pathStr b.path).data)) := by
  have hbeq : (pathStr a.path == pathStr b.path) = false :=
    beq_eq_false_iff_ne.mpr h
  simp [pyLtPhotoInfo, chainCmp, cmpStr, cmpField, hbeq]

theorem pyLtTask_of_ne {a b : RenameTask}
    (h : pathStr a.photo_info.path ≠ pathStr b.photo_info.path) :
    pyLtTask a b =
      .ok (decide ((pathStr a.photo_info.path).data < (pathStr b.photo_info.path).data)) := by
  have hbeq : (pathStr a.photo_info.path == pathStr b.photo_info.path) = false :=
    beq_eq_false_iff_ne.mpr h
  have hne : pyEqPhotoInfo a.photo_info b.photo_info = false := by
    simp [pyEqPhotoInfo, hbeq]
  simp [pyLtTask, chainCmp, cmpField, hne, pyLtPhotoInfo_of_ne h]

/-- C9: once the runner drains with no interrupt, the final `rename_tasks`
and `skipped_items` are sorted by the path order, the Python comparisons the
sort performs are all defined (no `TypeError` on the batches the program
builds, whose paths are pairwise distinct), and the output is independent of
the order in which per-file results arrived: any permutation of the events
yields identical final lists. -/
theorem c9_sorted_deterministic (fs : FS)
    (evts evts2 : List (TpeEvent Path RenameTask))
    (hall : ∀ e ∈ evts, notInterrupt e = true)
    (hw : ∀ pt ∈ evts.filterMap doneOk, (pt.2).photo_info.path = pt.1)
    (hnd : ((evts.filterMap doneOk).map (fun pt => pathKey pt.1) ++
      (evts.filterMap doneErr).map (fun pe => pathKey pe.1)).Nodup)
    (hperm : evts2.Perm evts) :
    organizerFinal fs evts2 = organizerFinal fs evts ∧
    List.Sorted (fun a b => taskKey a ≤ taskKey b) (organizerFinal fs evts).1 ∧
    List.Sorted (fun a b => infoKey a ≤ infoKey b) (organizerFinal fs evts).2 ∧
    (∀ a ∈ (organizerFinal fs evts).1, ∀ b ∈ (organizerFinal fs evts).1,
      ∃ r, pyLtTask a b = .ok r) ∧
    (∀ a ∈ (organizerFinal fs evts).2, ∀ b ∈ (organizerFinal fs evts).2,
      ∃ r, pyLtPhotoInfo a b = .ok r) := by
  have hall2 : ∀ e ∈ evts2, notInterrupt e = true :=
    fun e he => hall e (hperm.mem_iff.mp he)
  have hndc : ((evts.filterMap doneOk).map (fun pt => pathKey pt.1)).Nodup :=
    ((List.nodup_append).mp hnd).1
  set c := evts.filterMap doneOk with hc
  set fl := evts.filterMap doneErr with hfl
  have hrtsub : ((c.filterMap (taskSel fs)).map taskKey).Sublist
      (c.map (fun pt => pathKey pt.1) ++ fl.map (fun pe => pathKey pe.1)) :=
    (taskSel_keys_sublist fs c hw).trans (List.sublist_append_left _ _)
  have hrtnd : ((c.filterMap (taskSel fs)).map taskKey).Nodup :=
    hrtsub.nodup hnd
  have hsknd : (((c.filterMap (skipSel fs)) ++ fl.map failSkip).map infoKey).Nodup := by
    rw [List.map_append, failSkip_keys]
    exact (List.Sublist.append (skipSel_keys_sublist fs c hw)
      (List.Sublist.refl _)).nodup hnd
  refine ⟨?_, ?_, ?_, ?_, ?_⟩
  · rw [organizerFinal_eq fs evts hall, organizerFinal_eq fs evts2 hall2]
    have hpc : (evts2.filterMap doneOk).Perm c := hperm.filterMap doneOk
    have hpf : (evts2.filterMap doneErr).Perm fl := hperm.filterMap doneErr
    have h1 : sortTasks ((evts2.filterMap doneOk).filterMap (taskSel fs)) =
        sortTasks (c.filterMap (taskSel fs)) := by
      unfold sortTasks
      exact (mergeSort_key_eq taskKey _ _ (hpc.filterMap (taskSel fs)).symm hrtnd).symm
    have h2 : sortInfos ((evts2.filterMap doneOk).filterMap (skipSel fs) ++
        (evts2.filterMap doneErr).map failSkip) =
        sortInfos (c.filterMap (skipSel fs) ++ fl.map failSkip) := by
      unfold sortInfos
      exact (mergeSort_key_eq infoKey _ _
        ((hpc.filterMap (skipSel fs)).append (hpf.map failSkip)).symm hsknd).symm
    rw [h1, h2]
  · rw [organizerFinal_eq fs evts hall]
    exact (List.sorted_mergeSort taskLe_trans taskLe_total _).imp
      (fun h => by simpa [taskLe] using h)
  · rw [organizerFinal_eq fs evts hall]
    exact (List.sorted_mergeSort infoLe_trans infoLe_total _).imp
      (fun h => by simpa [infoLe] using h)
  · rw [organizerFinal_eq fs evts hall]
    intro a ha b hb
    have ha' : a ∈ c.filterMap (taskSel fs) := List.mem_mergeSort.mp ha
    have hb' : b ∈ c.filterMap (taskSel fs) := List.mem_mergeSort.mp hb
    by_cases hk : taskKey a = taskKey b
    · have hab : a = b := List.inj_on_of_nodup_map hrtnd ha' hb' hk
      exact ⟨false, hab ▸ pyLtTask_self a⟩
    · have hne : pathStr a.photo_info.path ≠ pathStr b.photo_info.path := by
        intro hco
        exact hk (by simp only [taskKey, infoKey, pathKey, hco])
      exact ⟨_, pyLtTask_of_ne hne⟩
  · rw [organizerFinal_eq fs evts hall]
    intro a ha b hb
    have ha' : a ∈ c.filterMap (skipSel fs) ++ fl.map failSkip :=
      List.mem_mergeSort.mp ha
    have hb' : b ∈ c.filterMap (skipSel fs) ++ fl.map failSkip :=
      List.mem_mergeSort.mp hb
    by_cases hk : infoKey a = infoKey b
    · have hab : a = b := List.inj_on_of_nodup_map hsknd ha' hb' hk
      exact ⟨false, hab ▸ pyLtPhotoInfo_self a⟩
    · have hne : pathStr a.path ≠ pathStr b.path := by
        intro hco
        exact hk (by simp only [infoKey, pathKey, hco])
      exact ⟨_, pyLtPhotoInfo_of_ne hne⟩

/-- C9 witness: two completion events and one failure delivered in two
different orders produce identical, sorted final lists. -/
theorem c9_witness :
    organizerFinal emptyFS [evC, evB, evA] = organizerFinal emptyFS [evA, evB, evC] ∧
    List.Sorted (fun a b => taskKey a ≤ taskKey b)
      (organizerFinal emptyFS [evA, evB, evC]).1 := by
  have h := c9_sorted_deterministic emptyFS [evA, evB, evC] [evC, evB, evA]
    (by decide) (by decide) (by decide) (by decide)
  exact ⟨h.1, h.2.1⟩

end Phtorg
